import Mathlib

/-!
# Verification of the cmd-forwarder-sriov bootstrap orchestrator

A shallow embedding of `main.go` of cmd-forwarder-sriov: the eight-phase
startup sequence, its fail-fast error policy, the transport-server error
channel protocol (`exitOnErr`), and the registry registration payload.

External collaborators (envconfig, the SR-IOV config reader, the pools,
the device-plugin manager, the identity source, the transport listener,
the registry client) are modelled as an oracle environment `Env`: each
fallible collaborator call is a field of `Env` giving its outcome as a
function of the arguments the orchestrator passes.  The orchestrator
itself (`runMain`) is a direct translation of the body of `main`, with
Go's `log.Fatal` semantics made explicit: `log.Fatal` calls `os.Exit(1)`,
which does NOT run deferred functions.
-/

/-- Errors are carried as their rendered message strings. -/
abbrev Err := String

/-- The fields of Go's `url.URL` that `main.go` uses (`Scheme`, `Host`, `Path`). -/
structure GoURL where
  scheme : String
  host : String
  path : String
deriving DecidableEq, Repr

/-- A protobuf timestamp as built by `ptypes.TimestampProto`. -/
structure Timestamp where
  seconds : Int
  nanos : Int
deriving DecidableEq, Repr

/-- Opaque hardware-resource config value (`sriovconfig.Config`); the
orchestrator never inspects it, it only threads it between collaborators,
so an opaque token suffices to track which value flows where. -/
abbrev SriovConfig := Nat

/-- Opaque PCI pool value (`pci.Pool`). -/
abbrev PciPool := Nat

/-- Opaque token pool value (`token.Pool`). -/
abbrev TokenPool := Nat

/-- Opaque device-plugin manager value (`k8s.Manager`). -/
abbrev Manager := Nat

/-- The `Config` struct of `main.go` (cmd-forwarder-sriov configuration).
Durations are Go `time.Duration` values, i.e. integer nanoseconds. -/
structure Config where
  Name : String
  NSName : String
  ConnectTo : GoURL
  MaxTokenLifetime : Int
  ResourcePollTimeout : Int
  DevicePluginPath : String
  PodResourcesPath : String
  SRIOVConfigFile : String
  PCIDevicesPath : String
  PCIDriversPath : String
  CgroupPath : String
  VFIOPath : String
deriving DecidableEq, Repr

/-! ## Parsers for the environment-sourced configuration

`envconfig.Process` fills each `Config` field from the environment
variable named by the `nsm` prefix and the (split-words) field name,
falling back to the struct-tag `default` string when the variable is
absent, and parsing durations with `time.ParseDuration` and the URL via
`url.URL`'s text decoding.  These library functions are external to the
repository; the models below cover the fragment they are applied to
(unsigned integer duration segments, `scheme://[host]/path` URLs). -/

/-- Nanosecond multiplier of a `time.ParseDuration` unit suffix. -/
def durUnit (u : String) : Option Int :=
  if u = "ns" then some 1
  else if u = "us" then some 1000
  else if u = "ms" then some 1000000
  else if u = "s" then some 1000000000
  else if u = "m" then some 60000000000
  else if u = "h" then some 3600000000000
  else none

/-- Split a leading run of decimal digits off a character list. -/
def takeDigits : List Char → List Char × List Char
  | [] => ([], [])
  | c :: cs =>
    if c.isDigit then
      let (ds, rest) := takeDigits cs
      (c :: ds, rest)
    else ([], c :: cs)

/-- Split a leading run of non-digit characters (a unit suffix) off a list. -/
def takeUnit : List Char → List Char × List Char
  | [] => ([], [])
  | c :: cs =>
    if c.isDigit then ([], c :: cs)
    else
      let (us, rest) := takeUnit cs
      (c :: us, rest)

/-- Decimal value of a digit list. -/
def digitsToNat (ds : List Char) : Nat :=
  ds.foldl (fun a c => a * 10 + (c.toNat - 48)) 0

/-- Parse a sequence of `<digits><unit>` duration segments, summing their
nanosecond values; `fuel` bounds the recursion. -/
def parseSegments : Nat → List Char → Option Int
  | _, [] => some 0
  | 0, _ :: _ => none
  | fuel + 1, c :: cs =>
    match takeDigits (c :: cs) with
    | ([], _) => none
    | (d :: ds, rest) =>
      match takeUnit rest with
      | (us, rest2) =>
        match durUnit (String.mk us) with
        | none => none
        | some mult =>
          match parseSegments fuel rest2 with
          | none => none
          | some tail => some ((digitsToNat (d :: ds) : Int) * mult + tail)

/-- Model of Go `time.ParseDuration` on the fragment used here:
`"0"` and non-empty sequences of unsigned `<digits><unit>` segments. -/
def parseDuration (s : String) : Option Int :=
  if s = "" then none
  else if s = "0" then some 0
  else parseSegments (s.data.length + 1) s.data

/-- Split a character list at the first `"://"`. -/
def splitSchemeSep : List Char → Option (List Char × List Char)
  | [] => none
  | ':' :: '/' :: '/' :: rest => some ([], rest)
  | c :: cs =>
    match splitSchemeSep cs with
    | none => none
    | some (a, b) => some (c :: a, b)

/-- Split the part after `"://"` into host (up to the first slash) and path. -/
def splitHostPath : List Char → List Char × List Char
  | [] => ([], [])
  | '/' :: rest => ([], '/' :: rest)
  | c :: cs =>
    let (h, p) := splitHostPath cs
    (c :: h, p)

/-- Model of `url.URL` text decoding on the `scheme://[host][/path]` URLs
used by this program; fails when the `"://"` separator or scheme is missing. -/
def parseURL (s : String) : Option GoURL :=
  match splitSchemeSep s.data with
  | none => none
  | some (sch, rest) =>
    if sch = [] then none
    else
      let (h, p) := splitHostPath rest
      some ⟨String.mk sch, String.mk h, String.mk p⟩

/-- String field: environment value when present, else the tag default;
never fails. -/
def getString (lookup : String → Option String) (key defVal : String) : String :=
  (lookup key).getD defVal

/-- Duration field: parse the environment value when present, else the tag
default; malformed text is a processing error. -/
def getDuration (lookup : String → Option String) (key defVal : String) : Except Err Int :=
  match parseDuration ((lookup key).getD defVal) with
  | some d => .ok d
  | none => .error ("invalid duration value for " ++ key ++ ": " ++ (lookup key).getD defVal)

/-- URL field: parse the environment value when present, else the tag
default; malformed text is a processing error. -/
def getURL (lookup : String → Option String) (key defVal : String) : Except Err GoURL :=
  match parseURL ((lookup key).getD defVal) with
  | some u => .ok u
  | none => .error ("invalid url value for " ++ key ++ ": " ++ (lookup key).getD defVal)

/-- Model of `envconfig.Process("nsm", config)`: fill every `Config` field from the
environment, with the defaults of the struct tags in `main.go`. -/
def envconfigProcess (lookup : String → Option String) : Except Err Config :=
  match getURL lookup "NSM_CONNECT_TO" "unix:///connect.to.socket" with
  | .error err => .error err
  | .ok connectTo =>
  match getDuration lookup "NSM_MAX_TOKEN_LIFETIME" "24h" with
  | .error err => .error err
  | .ok maxTokenLifetime =>
  match getDuration lookup "NSM_RESOURCE_POLL_TIMEOUT" "30s" with
  | .error err => .error err
  | .ok resourcePollTimeout =>
    .ok
      { Name := getString lookup "NSM_NAME" "interpose-nse#sriov-forwarder"
        NSName := getString lookup "NSM_NSNAME" "sriovns"
        ConnectTo := connectTo
        MaxTokenLifetime := maxTokenLifetime
        ResourcePollTimeout := resourcePollTimeout
        DevicePluginPath := getString lookup "NSM_DEVICE_PLUGIN_PATH" "/var/lib/kubelet/device-plugins/"
        PodResourcesPath := getString lookup "NSM_POD_RESOURCES_PATH" "/var/lib/kubelet/pod-resources/"
        SRIOVConfigFile := getString lookup "NSM_SRIOV_CONFIG_FILE" "pci.config"
        PCIDevicesPath := getString lookup "NSM_PCI_DEVICES_PATH" "/sys/bus/pci/devices"
        PCIDriversPath := getString lookup "NSM_PCI_DRIVERS_PATH" "/sys/bus/pci/drivers"
        CgroupPath := getString lookup "NSM_CGROUP_PATH" "/host/sys/fs/cgroup/devices"
        VFIOPath := getString lookup "NSM_VFIO_PATH" "/host/dev/vfio" }

/-- The `Config` value produced from an empty environment: every field at
its `default` struct-tag value from `main.go`. -/
def defaultConfig : Config :=
  { Name := "interpose-nse#sriov-forwarder"
    NSName := "sriovns"
    ConnectTo := ⟨"unix", "", "/connect.to.socket"⟩
    MaxTokenLifetime := 86400000000000
    ResourcePollTimeout := 30000000000
    DevicePluginPath := "/var/lib/kubelet/device-plugins/"
    PodResourcesPath := "/var/lib/kubelet/pod-resources/"
    SRIOVConfigFile := "pci.config"
    PCIDevicesPath := "/sys/bus/pci/devices"
    PCIDriversPath := "/sys/bus/pci/drivers"
    CgroupPath := "/host/sys/fs/cgroup/devices"
    VFIOPath := "/host/dev/vfio" }

/-! ## The orchestrator -/

/-- Go `path.Join(a, b)` on the inputs occurring here: a clean,
non-empty directory with no trailing slash joined with a file name. -/
def pathJoin (a b : String) : String :=
  if a = "" then b else a ++ "/" ++ b

/-- Modelled from the spec: `grpcutils.URLToTarget`, the transport-layer
target string for a URL (the sdk helper is outside this repository; the
spec states the registered `url` is "the transport-layer target string
for the locally bound listener"). -/
def urlToTarget (u : GoURL) : String :=
  u.scheme ++ "://" ++ u.host ++ u.path

/-- Lower bound of `ptypes.TimestampProto` validity (seconds of 0001-01-01). -/
def minValidSeconds : Int := -62135596800

/-- Upper bound of `ptypes.TimestampProto` validity (seconds of 10000-01-01). -/
def maxValidSeconds : Int := 253402300800

/-- Model of `ptypes.TimestampProto(t)` for a time of `tNanos` nanoseconds since the
Unix epoch: split into seconds and nanosecond remainder, and fail when the
seconds fall outside the protobuf-representable year range. -/
def timestampProto (tNanos : Int) : Except Err Timestamp :=
  let s := Int.fdiv tNanos 1000000000
  let n := Int.emod tNanos 1000000000
  if s < minValidSeconds then .error "timestamp before 0001-01-01"
  else if maxValidSeconds ≤ s then .error "timestamp after 10000-01-01"
  else .ok ⟨s, n⟩

/-- The `registryapi.NetworkServiceEndpoint` record submitted to the
registry in phase 8 (the fields `main.go` sets). -/
structure RegRecord where
  Name : String
  NetworkServiceNames : List String
  Url : String
  ExpirationTime : Timestamp
deriving DecidableEq, Repr

/-- The oracle environment: the outcome of every external collaborator
call `main` makes, as a function of the arguments `main` passes to it, plus
the process environment, the clock reading at phase-8 submission, and
whether the transport task already pushed an error onto its channel by the
time of the non-blocking `exitOnErr` check. -/
structure Env where
  /-- The process environment variables (phase 1, `envconfig.Process`). -/
  envLookup : String → Option String
  /-- Outcome of `sriovconfig.ReadConfig(ctx, path)` (phase 2). -/
  readConfigResult : String → Except Err SriovConfig
  /-- Outcome of `pci.UpdateConfig(devicesPath, driversPath, cfg)` (phase 2): the Go
  function mutates `cfg` in place, modelled as returning the updated value. -/
  updateConfigResult : String → String → SriovConfig → Except Err SriovConfig
  /-- Value of `token.NewPool(cfg)` (phase 3, infallible). -/
  tokenPoolOf : SriovConfig → TokenPool
  /-- Outcome of `pci.NewPool(devicesPath, driversPath, vfioPath, cfg)` (phase 3). -/
  pciPoolResult : String → String → String → SriovConfig → Except Err PciPool
  /-- Value of `k8s.NewManager(devicePluginPath, podResourcesPath)` (phase 4, infallible). -/
  newManager : String → String → Manager
  /-- Outcome of `deviceplugin.StartServers(ctx, tokenPool, pollTimeout, manager)` (phase 4). -/
  startServersResult : TokenPool → Int → Manager → Except Err Unit
  /-- Outcome of `workloadapi.NewX509Source(ctx)` (phase 5). -/
  x509SourceResult : Except Err Unit
  /-- Outcome of `source.GetX509SVID()` (phase 5); on success, the SVID id string. -/
  svidResult : Except Err String
  /-- Outcome of `ioutil.TempDir("", "sriov-forwarder")` (phase 7). -/
  tempDirResult : Except Err String
  /-- Whether the `grpcutils.ListenAndServe` task has already pushed an
  error onto `srvErrCh` when `exitOnErr` performs its non-blocking check. -/
  listenPendingErr : Option Err
  /-- Outcome of `grpc.DialContext(ctx, target, ...)` (phase 8). -/
  dialResult : String → Except Err Unit
  /-- The `time.Now()` reading at phase-8 submission, in nanoseconds. -/
  now : Int
  /-- Outcome of `registryClient.Register(ctx, record)` (phase 8). -/
  registerResult : RegRecord → Except Err Unit

/-- The phase-start announcements logged so far: `[1, ..., k]`. -/
def phaseList (k : Nat) : List Nat := List.range' 1 k

/-- The observable final state of one process run. -/
structure FinalState where
  /-- Phases whose `executing phase k` announcement was logged. -/
  phasesStarted : List Nat
  /-- Process exit status: `0` for a normal return from `main`, `1` for
  a `log.Fatal` path (`os.Exit(1)`). -/
  exitCode : Nat
  /-- The phase in which a `log.Fatal` fired, if any. -/
  fatalPhase : Option Nat
  /-- The collaborator error surfaced by that `log.Fatal`, if any. -/
  fatalErr : Option Err
  /-- The message the fatal log line carries, if any. -/
  fatalMsg : Option String
  /-- The temporary socket directory, once `ioutil.TempDir` succeeded. -/
  tmpDir : Option String
  /-- Whether the deferred `os.RemoveAll(tmpDir)` ran.  Deferred functions
  run on a normal return from `main` but are skipped by `os.Exit`, hence by
  every `log.Fatal`. -/
  tmpDirRemoved : Bool
  /-- The URL the transport server was asked to listen on. -/
  listenOn : Option GoURL
  /-- Whether `exitOnErr` spawned its background watcher goroutine. -/
  watcherInstalled : Bool
  /-- Whether `registryClient.Register` was called. -/
  registerAttempted : Bool
  /-- The registration record submitted to the registry, if any. -/
  registration : Option RegRecord
  /-- Whether startup completed (the `Running` state of the spec). -/
  reachedRunning : Bool
  /-- Whether the `Startup completed` success line was logged. -/
  startupLogged : Bool
  /-- Whether the control path blocked on `<-ctx.Done()`. -/
  awaitedCancel : Bool
  /-- The hardware config value handed to the pool constructors, if any. -/
  poolsConfig : Option SriovConfig
deriving DecidableEq, Repr

/-- The body of `main` in `main.go`, phase by phase.  Setup before phase 1
(signal context, logging, tracing, debug) performs no fallible collaborator
call relevant here; `envconfig.Usage` only renders the usage table and is
elided.  Phase 6 (`sriovns.NewServer`) and the grpc server construction and
`endpoint.Register(server)` of phase 7 return no error and produce values
(endpoint, server) that only flow into the transport task, so they leave no
trace in `FinalState` beyond the phase announcements. -/
def runMain (e : Env) : FinalState :=
  -- phase 1: get config from environment
  match envconfigProcess e.envLookup with
  | .error err =>
    { phasesStarted := phaseList 1, exitCode := 1, fatalPhase := some 1,
      fatalErr := some err,
      fatalMsg := some ("error processing config from env: " ++ err),
      tmpDir := none, tmpDirRemoved := false, listenOn := none,
      watcherInstalled := false, registerAttempted := false, registration := none,
      reachedRunning := false, startupLogged := false, awaitedCancel := false,
      poolsConfig := none }
  | .ok config =>
  -- phase 2: get SR-IOV config from file
  match e.readConfigResult config.SRIOVConfigFile with
  | .error err =>
    { phasesStarted := phaseList 2, exitCode := 1, fatalPhase := some 2,
      fatalErr := some err,
      fatalMsg := some ("failed to get PCI resources config: " ++ err),
      tmpDir := none, tmpDirRemoved := false, listenOn := none,
      watcherInstalled := false, registerAttempted := false, registration := none,
      reachedRunning := false, startupLogged := false, awaitedCancel := false,
      poolsConfig := none }
  | .ok sriovConfig0 =>
  match e.updateConfigResult config.PCIDevicesPath config.PCIDriversPath sriovConfig0 with
  | .error err =>
    { phasesStarted := phaseList 2, exitCode := 1, fatalPhase := some 2,
      fatalErr := some err,
      fatalMsg := some ("failed to update PCI resources config with VFs: " ++ err),
      tmpDir := none, tmpDirRemoved := false, listenOn := none,
      watcherInstalled := false, registerAttempted := false, registration := none,
      reachedRunning := false, startupLogged := false, awaitedCancel := false,
      poolsConfig := none }
  | .ok sriovConfig =>
  -- phase 3: init pools (token.NewPool first, then pci.NewPool, then resource.NewPool)
  match e.pciPoolResult config.PCIDevicesPath config.PCIDriversPath config.VFIOPath sriovConfig with
  | .error err =>
    { phasesStarted := phaseList 3, exitCode := 1, fatalPhase := some 3,
      fatalErr := some err,
      fatalMsg := some ("failed to init PCI pool: " ++ err),
      tmpDir := none, tmpDirRemoved := false, listenOn := none,
      watcherInstalled := false, registerAttempted := false, registration := none,
      reachedRunning := false, startupLogged := false, awaitedCancel := false,
      poolsConfig := some sriovConfig }
  | .ok _pciPool =>
  -- phase 4: start device plugin server
  match e.startServersResult (e.tokenPoolOf sriovConfig) config.ResourcePollTimeout
      (e.newManager config.DevicePluginPath config.PodResourcesPath) with
  | .error err =>
    { phasesStarted := phaseList 4, exitCode := 1, fatalPhase := some 4,
      fatalErr := some err,
      fatalMsg := some ("failed to start a device plugin server: " ++ err),
      tmpDir := none, tmpDirRemoved := false, listenOn := none,
      watcherInstalled := false, registerAttempted := false, registration := none,
      reachedRunning := false, startupLogged := false, awaitedCancel := false,
      poolsConfig := some sriovConfig }
  | .ok _ =>
  -- phase 5: retrieve spiffe svid
  match e.x509SourceResult with
  | .error err =>
    { phasesStarted := phaseList 5, exitCode := 1, fatalPhase := some 5,
      fatalErr := some err,
      fatalMsg := some ("error getting x509 source: " ++ err),
      tmpDir := none, tmpDirRemoved := false, listenOn := none,
      watcherInstalled := false, registerAttempted := false, registration := none,
      reachedRunning := false, startupLogged := false, awaitedCancel := false,
      poolsConfig := some sriovConfig }
  | .ok _ =>
  match e.svidResult with
  | .error err =>
    { phasesStarted := phaseList 5, exitCode := 1, fatalPhase := some 5,
      fatalErr := some err,
      fatalMsg := some ("error getting x509 svid: " ++ err),
      tmpDir := none, tmpDirRemoved := false, listenOn := none,
      watcherInstalled := false, registerAttempted := false, registration := none,
      reachedRunning := false, startupLogged := false, awaitedCancel := false,
      poolsConfig := some sriovConfig }
  | .ok _svid =>
  -- phase 6: create sriovns network service endpoint (no fallible call)
  -- phase 7: create grpc server and register sriovns
  match e.tempDirResult with
  | .error err =>
    { phasesStarted := phaseList 7, exitCode := 1, fatalPhase := some 7,
      fatalErr := some err,
      fatalMsg := some ("error creating tmpDir: " ++ err),
      tmpDir := none, tmpDirRemoved := false, listenOn := none,
      watcherInstalled := false, registerAttempted := false, registration := none,
      reachedRunning := false, startupLogged := false, awaitedCancel := false,
      poolsConfig := some sriovConfig }
  | .ok tmpDir =>
  -- listenOn := &url.URL{Scheme: "unix", Path: path.Join(tmpDir, "listen_on.io.sock")}
  -- srvErrCh := grpcutils.ListenAndServe(ctx, listenOn, server); exitOnErr(...)
  match e.listenPendingErr with
  | some err =>
    -- non-blocking receive found a pending error: log.Fatal(err)
    { phasesStarted := phaseList 7, exitCode := 1, fatalPhase := some 7,
      fatalErr := some err, fatalMsg := some err,
      tmpDir := some tmpDir, tmpDirRemoved := false,
      listenOn := some ⟨"unix", "", pathJoin tmpDir "listen_on.io.sock"⟩,
      watcherInstalled := false, registerAttempted := false, registration := none,
      reachedRunning := false, startupLogged := false, awaitedCancel := false,
      poolsConfig := some sriovConfig }
  | none =>
  -- phase 8: register NSName with the registry
  match e.dialResult (urlToTarget config.ConnectTo) with
  | .error err =>
    { phasesStarted := phaseList 8, exitCode := 1, fatalPhase := some 8,
      fatalErr := some err,
      fatalMsg := some ("failed to connect to registry: " ++ err),
      tmpDir := some tmpDir, tmpDirRemoved := false,
      listenOn := some ⟨"unix", "", pathJoin tmpDir "listen_on.io.sock"⟩,
      watcherInstalled := true, registerAttempted := false, registration := none,
      reachedRunning := false, startupLogged := false, awaitedCancel := false,
      poolsConfig := some sriovConfig }
  | .ok _ =>
  match timestampProto (e.now + config.MaxTokenLifetime) with
  | .error err =>
    { phasesStarted := phaseList 8, exitCode := 1, fatalPhase := some 8,
      fatalErr := some err,
      fatalMsg := some ("failed to connect to registry: " ++ err),
      tmpDir := some tmpDir, tmpDirRemoved := false,
      listenOn := some ⟨"unix", "", pathJoin tmpDir "listen_on.io.sock"⟩,
      watcherInstalled := true, registerAttempted := false, registration := none,
      reachedRunning := false, startupLogged := false, awaitedCancel := false,
      poolsConfig := some sriovConfig }
  | .ok expireTime =>
  match e.registerResult
      ⟨config.Name, [config.NSName],
        urlToTarget ⟨"unix", "", pathJoin tmpDir "listen_on.io.sock"⟩, expireTime⟩ with
  | .error err =>
    { phasesStarted := phaseList 8, exitCode := 1, fatalPhase := some 8,
      fatalErr := some err,
      fatalMsg := some ("failed to connect to registry: " ++ err),
      tmpDir := some tmpDir, tmpDirRemoved := false,
      listenOn := some ⟨"unix", "", pathJoin tmpDir "listen_on.io.sock"⟩,
      watcherInstalled := true, registerAttempted := true,
      registration := some ⟨config.Name, [config.NSName],
        urlToTarget ⟨"unix", "", pathJoin tmpDir "listen_on.io.sock"⟩, expireTime⟩,
      reachedRunning := false, startupLogged := false, awaitedCancel := false,
      poolsConfig := some sriovConfig }
  | .ok _ =>
    -- "Startup completed" logged, then <-ctx.Done(); deferred cleanups run
    { phasesStarted := phaseList 8, exitCode := 0, fatalPhase := none,
      fatalErr := none, fatalMsg := none,
      tmpDir := some tmpDir, tmpDirRemoved := true,
      listenOn := some ⟨"unix", "", pathJoin tmpDir "listen_on.io.sock"⟩,
      watcherInstalled := true, registerAttempted := true,
      registration := some ⟨config.Name, [config.NSName],
        urlToTarget ⟨"unix", "", pathJoin tmpDir "listen_on.io.sock"⟩, expireTime⟩,
      reachedRunning := true, startupLogged := true, awaitedCancel := true,
      poolsConfig := some sriovConfig }

/-- Events of the `exitOnErr` background watcher goroutine. -/
inductive WatcherEvent where
  | recv (err : Err)
  | logError (err : Err)
  | cancelToken
deriving DecidableEq, Repr

/-- The body of the goroutine spawned by `exitOnErr`: block on the channel
(`err := <-errCh`), then `log.Error(err)`, then `cancel()`.  `err` is the
value the transport task eventually emits. -/
def watcherRun (err : Err) : List WatcherEvent :=
  [WatcherEvent.recv err, WatcherEvent.logError err, WatcherEvent.cancelToken]

/-! ## Concrete oracle environments for evaluation -/

/-- An environment in which every collaborator call succeeds. -/
def allOkEnv : Env :=
  { envLookup := fun _ => none
    readConfigResult := fun _ => .ok 0
    updateConfigResult := fun _ _ c => .ok (c + 1)
    tokenPoolOf := fun c => c
    pciPoolResult := fun _ _ _ _ => .ok 0
    newManager := fun _ _ => 0
    startServersResult := fun _ _ _ => .ok ()
    x509SourceResult := .ok ()
    svidResult := .ok "spiffe-id"
    tempDirResult := .ok "/tmp/sriov-forwarder111"
    listenPendingErr := none
    dialResult := fun _ => .ok ()
    now := 1700000000000000000
    registerResult := fun _ => .ok () }

/-- Every collaborator succeeds except the phase-8 registry dial. -/
def dialFailEnv : Env :=
  { allOkEnv with dialResult := fun _ => .error "connection refused" }

/-- Every collaborator succeeds but the transport task has already pushed
a bind error onto its channel by the time of the non-blocking check. -/
def pendingErrEnv : Env :=
  { allOkEnv with listenPendingErr := some "listen tcp: bind: address already in use" }

/-- Every collaborator succeeds but the clock is so late that the
expiration exceeds the protobuf-representable timestamp range. -/
def lateClockEnv : Env :=
  { allOkEnv with now := 253402300800000000000 }

/-- Every collaborator succeeds except the `Register` call itself. -/
def registerFailEnv : Env :=
  { allOkEnv with registerResult := fun _ => .error "registration denied" }

/-- An environment map holding a malformed duration for the
max-token-lifetime variable and nothing else. -/
def badDurationLookup : String → Option String :=
  fun k => if k = "NSM_MAX_TOKEN_LIFETIME" then some "1x" else none

/-! ## Helper lemmas -/

/-- A duration getter can only fail when the variable is present: with a
well-formed default, the absent-variable branch always parses. -/
lemma getDuration_error_present {lookup : String → Option String} {k d err : String}
    (hd : (parseDuration d).isSome = true)
    (h : getDuration lookup k d = .error err) : ∃ v, lookup k = some v := by
  rcases hk : lookup k with _ | v
  · exfalso
    unfold getDuration at h
    rw [hk] at h
    simp only [Option.getD_none] at h
    rcases hp : parseDuration d with _ | val
    · rw [hp] at hd; simp at hd
    · rw [hp] at h; simp at h
  · exact ⟨v, rfl⟩

/-- A URL getter can only fail when the variable is present: with a
well-formed default, the absent-variable branch always parses. -/
lemma getURL_error_present {lookup : String → Option String} {k d err : String}
    (hd : (parseURL d).isSome = true)
    (h : getURL lookup k d = .error err) : ∃ v, lookup k = some v := by
  rcases hk : lookup k with _ | v
  · exfalso
    unfold getURL at h
    rw [hk] at h
    simp only [Option.getD_none] at h
    rcases hp : parseURL d with _ | val
    · rw [hp] at hd; simp at hd
    · rw [hp] at h; simp at h
  · exact ⟨v, rfl⟩

/-! ## Claims -/

/-- C7: configuration loading — every parameter is optional with a stated
default, so the empty environment yields the default record (with
`MaxTokenLifetime = 24h`, `ResourcePollTimeout = 30s`, `NSName = "sriovns"`
among the defaults); and processing fails only when some variable is
actually present (and malformed), never on a merely missing field. -/
theorem config_defaults_and_optional :
    envconfigProcess (fun _ => none) = .ok defaultConfig ∧
    ∀ lookup err, envconfigProcess lookup = .error err →
      ∃ k v, lookup k = some v := by
  refine ⟨by rfl, ?_⟩
  intro lookup err h
  unfold envconfigProcess at h
  rcases hu : getURL lookup "NSM_CONNECT_TO" "unix:///connect.to.socket" with e1 | u
  · obtain ⟨v, hv⟩ := getURL_error_present (by rfl) hu
    exact ⟨_, v, hv⟩
  rw [hu] at h
  rcases hd1 : getDuration lookup "NSM_MAX_TOKEN_LIFETIME" "24h" with e2 | d1
  · obtain ⟨v, hv⟩ := getDuration_error_present (by rfl) hd1
    exact ⟨_, v, hv⟩
  rw [hd1] at h
  rcases hd2 : getDuration lookup "NSM_RESOURCE_POLL_TIMEOUT" "30s" with e3 | d2
  · obtain ⟨v, hv⟩ := getDuration_error_present (by rfl) hd2
    exact ⟨_, v, hv⟩
  rw [hd2] at h
  simp at h

/-- Witness for C7: the empty environment succeeds with the defaults, and
a malformed (present) duration makes processing fail, exhibiting the
present variable. -/
theorem config_defaults_and_optional_witness :
    ∃ k v, badDurationLookup k = some v :=
  config_defaults_and_optional.2 badDurationLookup
    ("invalid duration value for NSM_MAX_TOKEN_LIFETIME: 1x") (by rfl)

/-- C1: fail-fast phase sequencing — whenever a collaborator call of phase
`k` fails (`runMain` reports a fatal in phase `k`), exactly the phases
`1..k` were started, no later phase ran, the process exits with status 1,
`Running` is never reached, and the fatal log line surfaces exactly the
collaborator's error. -/
theorem failFastSequencing (e : Env) (k : Nat)
    (h : (runMain e).fatalPhase = some k) :
    1 ≤ k ∧ k ≤ 8 ∧
    (runMain e).phasesStarted = phaseList k ∧
    (runMain e).exitCode = 1 ∧
    (runMain e).reachedRunning = false ∧
    ∃ err, (runMain e).fatalErr = some err ∧
      ∃ p, (runMain e).fatalMsg = some (p ++ err) := by
  revert h
  unfold runMain
  repeat' split
  all_goals intro h
  all_goals
    first
      | exact (Option.noConfusion h)
      | (injection h with hk; subst hk;
         exact ⟨by decide, by decide, rfl, rfl, rfl, _, rfl, _, rfl⟩)
      | (injection h with hk; subst hk;
         exact ⟨by decide, by decide, rfl, rfl, rfl, _, rfl, "", rfl⟩)

/-- Witness for C1: in the dial-failure environment the fatal is in phase
8, so exactly phases 1..8 started and the process exited with status 1. -/
theorem failFastSequencing_witness :
    1 ≤ 8 ∧ 8 ≤ 8 ∧
    (runMain dialFailEnv).phasesStarted = phaseList 8 ∧
    (runMain dialFailEnv).exitCode = 1 ∧
    (runMain dialFailEnv).reachedRunning = false ∧
    ∃ err, (runMain dialFailEnv).fatalErr = some err ∧
      ∃ p, (runMain dialFailEnv).fatalMsg = some (p ++ err) :=
  failFastSequencing dialFailEnv 8 (by rfl)

/-- C2: non-blocking post-start check — when the run created the socket
directory (so the transport task was started) and an error is already
pending on the channel at the non-blocking check, the process exits
fatally in phase 7 logging that error, phase 8 never starts, `Register`
is never attempted, and no watcher goroutine is spawned. -/
theorem nonBlockingPostStartCheck (e : Env) (err : Err)
    (h1 : (runMain e).tmpDir.isSome = true)
    (h2 : e.listenPendingErr = some err) :
    (runMain e).fatalPhase = some 7 ∧
    (runMain e).fatalMsg = some err ∧
    (runMain e).exitCode = 1 ∧
    (runMain e).registerAttempted = false ∧
    8 ∉ (runMain e).phasesStarted ∧
    (runMain e).watcherInstalled = false := by
  revert h1
  unfold runMain
  repeat' split
  all_goals intro h1
  all_goals simp_all [phaseList]

/-- Witness for C2: the pending-bind-error environment. -/
theorem nonBlockingPostStartCheck_witness :
    (runMain pendingErrEnv).fatalPhase = some 7 ∧
    (runMain pendingErrEnv).fatalMsg = some "listen tcp: bind: address already in use" ∧
    (runMain pendingErrEnv).exitCode = 1 ∧
    (runMain pendingErrEnv).registerAttempted = false ∧
    8 ∉ (runMain pendingErrEnv).phasesStarted ∧
    (runMain pendingErrEnv).watcherInstalled = false :=
  nonBlockingPostStartCheck pendingErrEnv "listen tcp: bind: address already in use"
    (by rfl) (by rfl)

/-- C3: watcher protocol — the watcher goroutine is spawned exactly when
the non-blocking check found nothing pending (and the listener was
started); the goroutine's trace triggers cancellation only strictly after
it received the transport task's value from the channel, and it triggers
cancellation exactly once. -/
theorem watcherProtocol :
    (∀ e, (runMain e).watcherInstalled = true → e.listenPendingErr = none) ∧
    (∀ e, (runMain e).tmpDir.isSome = true → e.listenPendingErr = none →
      (runMain e).watcherInstalled = true) ∧
    (∀ err i, (watcherRun err).get? i = some WatcherEvent.cancelToken →
      ∃ j, j < i ∧ (watcherRun err).get? j = some (WatcherEvent.recv err)) ∧
    (∀ err, (watcherRun err).count WatcherEvent.cancelToken = 1) := by
  refine ⟨?_, ?_, ?_, ?_⟩
  · intro e
    unfold runMain
    repeat' split
    all_goals intro h
    all_goals first
      | exact (Bool.noConfusion h)
      | assumption
  · intro e
    unfold runMain
    repeat' split
    all_goals intro h1 h2
    all_goals simp_all
  · intro err i h
    rcases i with _ | _ | _ | n
    · simp [watcherRun] at h
    · simp [watcherRun] at h
    · exact ⟨0, by omega, by rfl⟩
    · simp [watcherRun] at h
  · intro err
    rfl

/-- Witness for C3: in the all-success run the watcher is installed with
nothing pending, and the trace of a watcher observing a transport failure
receives the value before the cancellation it triggers. -/
theorem watcherProtocol_witness :
    allOkEnv.listenPendingErr = none ∧
    (runMain allOkEnv).watcherInstalled = true ∧
    ∃ j, j < 2 ∧ (watcherRun "transport failed").get? j =
      some (WatcherEvent.recv "transport failed") :=
  ⟨watcherProtocol.1 allOkEnv (by rfl),
   watcherProtocol.2.1 allOkEnv (by rfl) (by rfl),
   watcherProtocol.2.2.1 "transport failed" 2 (by rfl)⟩

/-- Counterexample to C5: a run that terminates fatally in phase 8 (exit
status 1) after the temporary socket directory was created leaves the
directory in place — `log.Fatal` calls `os.Exit(1)`, which skips the
deferred `os.RemoveAll(tmpDir)`. -/
theorem socketDirNotRemovedOnFatal :
    (runMain dialFailEnv).tmpDir = some "/tmp/sriov-forwarder111" ∧
    (runMain dialFailEnv).exitCode = 1 ∧
    (runMain dialFailEnv).tmpDirRemoved = false :=
  ⟨rfl, rfl, rfl⟩

/-- C5 as amended: the transient socket directory is created at the start
of phase 7, and it is removed exactly on the normal termination path
(cancellation or signal after startup, when `main` returns and its
deferred cleanup runs); on every fatal log-and-exit path after its
creation the deferred removal is skipped and the directory persists. -/
theorem socketDirLifecycle (e : Env) (d : String)
    (h : (runMain e).tmpDir = some d) :
    7 ∈ (runMain e).phasesStarted ∧
    ((runMain e).exitCode = 0 → (runMain e).tmpDirRemoved = true) ∧
    ((runMain e).exitCode = 1 → (runMain e).tmpDirRemoved = false) := by
  revert h
  unfold runMain
  repeat' split
  all_goals intro h
  all_goals first
    | exact (Option.noConfusion h)
    | (refine ⟨?_, fun h2 => ?_, fun h2 => ?_⟩ <;>
        first
          | (show 7 ∈ phaseList 7; decide)
          | (show 7 ∈ phaseList 8; decide)
          | rfl
          | exact (Nat.noConfusion h2))

/-- Witness for the amended C5: the dial-failure run created the
directory, exited with status 1, and did not remove it. -/
theorem socketDirLifecycle_witness :
    7 ∈ (runMain dialFailEnv).phasesStarted ∧
    ((runMain dialFailEnv).exitCode = 0 → (runMain dialFailEnv).tmpDirRemoved = true) ∧
    ((runMain dialFailEnv).exitCode = 1 → (runMain dialFailEnv).tmpDirRemoved = false) :=
  socketDirLifecycle dialFailEnv "/tmp/sriov-forwarder111" (by rfl)

/-- C6: `Running` is terminal-until-external-event — when startup
completes, registration was submitted successfully, the total startup
duration was logged, the control path blocked on the cancellation token,
all eight phases ran in order, no fatal occurred, and the process later
exits normally (status 0). -/
theorem runningTerminal (e : Env)
    (h : (runMain e).reachedRunning = true) :
    (runMain e).registerAttempted = true ∧
    (runMain e).registration.isSome = true ∧
    (runMain e).startupLogged = true ∧
    (runMain e).awaitedCancel = true ∧
    (runMain e).phasesStarted = phaseList 8 ∧
    (runMain e).fatalPhase = none ∧
    (runMain e).exitCode = 0 := by
  revert h
  unfold runMain
  repeat' split
  all_goals intro h
  all_goals first
    | exact (Bool.noConfusion h)
    | exact ⟨rfl, rfl, rfl, rfl, rfl, rfl, rfl⟩

/-- Witness for C6: the all-success run reaches `Running`. -/
theorem runningTerminal_witness :
    (runMain allOkEnv).registerAttempted = true ∧
    (runMain allOkEnv).registration.isSome = true ∧
    (runMain allOkEnv).startupLogged = true ∧
    (runMain allOkEnv).awaitedCancel = true ∧
    (runMain allOkEnv).phasesStarted = phaseList 8 ∧
    (runMain allOkEnv).fatalPhase = none ∧
    (runMain allOkEnv).exitCode = 0 :=
  runningTerminal allOkEnv (by rfl)

/-- C8: phase-2 algorithm — whatever hardware config reaches the pool
constructors is the in-place-updated result of `pci.UpdateConfig` applied
to the value `sriovconfig.ReadConfig` read from the configured file; and a
failure of either the read or the discovery step is fatal in phase 2,
before any pool sees a config. -/
theorem phase2ReadThenDiscover :
    (∀ e c, (runMain e).poolsConfig = some c →
      ∃ cfg c0, envconfigProcess e.envLookup = .ok cfg ∧
        e.readConfigResult cfg.SRIOVConfigFile = .ok c0 ∧
        e.updateConfigResult cfg.PCIDevicesPath cfg.PCIDriversPath c0 = .ok c) ∧
    (∀ e cfg err, envconfigProcess e.envLookup = .ok cfg →
      e.readConfigResult cfg.SRIOVConfigFile = .error err →
      (runMain e).fatalPhase = some 2 ∧ (runMain e).exitCode = 1 ∧
        (runMain e).poolsConfig = none) ∧
    (∀ e cfg c0 err, envconfigProcess e.envLookup = .ok cfg →
      e.readConfigResult cfg.SRIOVConfigFile = .ok c0 →
      e.updateConfigResult cfg.PCIDevicesPath cfg.PCIDriversPath c0 = .error err →
      (runMain e).fatalPhase = some 2 ∧ (runMain e).exitCode = 1 ∧
        (runMain e).poolsConfig = none) := by
  refine ⟨?_, ?_, ?_⟩
  · intro e c
    unfold runMain
    repeat' split
    all_goals intro h
    all_goals first
      | exact (Option.noConfusion h)
      | (injection h with hc; subst hc;
         exact ⟨_, _, by assumption, by assumption, by assumption⟩)
  · intro e cfg err h1 h2
    unfold runMain
    simp [h1, h2]
  · intro e cfg c0 err h1 h2 h3
    unfold runMain
    simp [h1, h2, h3]

/-- Witness for C8: in the all-success run the pools received config `1`,
which is exactly the discovery-updated form of the value read from file. -/
theorem phase2ReadThenDiscover_witness :
    ∃ cfg c0, envconfigProcess allOkEnv.envLookup = .ok cfg ∧
      allOkEnv.readConfigResult cfg.SRIOVConfigFile = .ok c0 ∧
      allOkEnv.updateConfigResult cfg.PCIDevicesPath cfg.PCIDriversPath c0 = .ok 1 :=
  phase2ReadThenDiscover.1 allOkEnv 1 (by rfl)

/-- C9: the listening address is not configurable — once the temporary
directory `d` exists, the transport server is asked to listen on exactly
`unix://` with path `d/listen_on.io.sock`, and any registration record
submitted carries exactly the target string of that same URL. -/
theorem listenSocketUnconfigurable (e : Env) (d : String)
    (h : (runMain e).tmpDir = some d) :
    (runMain e).listenOn = some ⟨"unix", "", pathJoin d "listen_on.io.sock"⟩ ∧
    ∀ r, (runMain e).registration = some r →
      r.Url = urlToTarget ⟨"unix", "", pathJoin d "listen_on.io.sock"⟩ := by
  revert h
  unfold runMain
  repeat' split
  all_goals intro h
  all_goals first
    | exact (Option.noConfusion h)
    | (injection h with hd; subst hd;
       refine ⟨rfl, fun r hr => ?_⟩;
       first
         | exact (Option.noConfusion hr)
         | (injection hr with hr2; subst hr2; rfl))

/-- Witness for C9: the all-success run listens on the socket inside its
temporary directory and registers that URL's target string. -/
theorem listenSocketUnconfigurable_witness :
    (runMain allOkEnv).listenOn =
      some ⟨"unix", "", pathJoin "/tmp/sriov-forwarder111" "listen_on.io.sock"⟩ ∧
    ∀ r, (runMain allOkEnv).registration = some r →
      r.Url = urlToTarget ⟨"unix", "", pathJoin "/tmp/sriov-forwarder111" "listen_on.io.sock"⟩ :=
  listenSocketUnconfigurable allOkEnv "/tmp/sriov-forwarder111" (by rfl)

/-- C10: every phase-8 fatality — registry dial failure, protobuf
timestamp-conversion failure, and `Register` failure alike — is logged
with the identical message prefix `failed to connect to registry`, as the
three concrete runs demonstrate for the three distinct failure points. -/
theorem registryFatalMessageUniform :
    (∀ e, (runMain e).fatalPhase = some 8 →
      ∃ err, (runMain e).fatalErr = some err ∧
        (runMain e).fatalMsg = some ("failed to connect to registry: " ++ err)) ∧
    (runMain dialFailEnv).fatalMsg =
      some ("failed to connect to registry: " ++ "connection refused") ∧
    (runMain lateClockEnv).fatalMsg =
      some ("failed to connect to registry: " ++ "timestamp after 10000-01-01") ∧
    (runMain registerFailEnv).fatalMsg =
      some ("failed to connect to registry: " ++ "registration denied") := by
  refine ⟨?_, rfl, rfl, rfl⟩
  intro e
  unfold runMain
  repeat' split
  all_goals intro h
  all_goals first
    | exact (Option.noConfusion h)
    | (injection h with hk; exact absurd hk (by decide))
    | exact ⟨_, rfl, rfl⟩

/-- Witness for C10: the timestamp-conversion failure of the late-clock
run is reported as a registry connection failure. -/
theorem registryFatalMessageUniform_witness :
    ∃ err, (runMain lateClockEnv).fatalErr = some err ∧
      (runMain lateClockEnv).fatalMsg =
        some ("failed to connect to registry: " ++ err) :=
  registryFatalMessageUniform.1 lateClockEnv (by rfl)

/-- C4: registration payload equality — whenever `Register` is attempted,
the submitted record is exactly `{name: cfg.Name, served-service-names:
[cfg.NSName] (one element), url: the target string of the locally bound
listener URL, expiration: the protobuf timestamp of now +
cfg.MaxTokenLifetime}`. -/
theorem registrationPayload (e : Env)
    (h : (runMain e).registerAttempted = true) :
    ∃ cfg u ts,
      envconfigProcess e.envLookup = .ok cfg ∧
      (runMain e).listenOn = some u ∧
      timestampProto (e.now + cfg.MaxTokenLifetime) = .ok ts ∧
      (runMain e).registration =
        some ⟨cfg.Name, [cfg.NSName], urlToTarget u, ts⟩ := by
  revert h
  unfold runMain
  repeat' split
  all_goals intro h
  all_goals first
    | exact (Bool.noConfusion h)
    | exact ⟨_, _, _, by assumption, rfl, by assumption, rfl⟩

/-- Witness for C4: the all-success run submits exactly the record built
from the default configuration and its listener URL. -/
theorem registrationPayload_witness :
    ∃ cfg u ts,
      envconfigProcess allOkEnv.envLookup = .ok cfg ∧
      (runMain allOkEnv).listenOn = some u ∧
      timestampProto (allOkEnv.now + cfg.MaxTokenLifetime) = .ok ts ∧
      (runMain allOkEnv).registration =
        some ⟨cfg.Name, [cfg.NSName], urlToTarget u, ts⟩ :=
  registrationPayload allOkEnv (by rfl)

